import Mathlib

/-!
Verification of the BRSR disclosure-metric extraction engine of
`streamlit_esg_dashboard.py` (class `EnhancedBRSRParser` and the
`BRSRExtractedData` record).  The Python code is shallowly embedded:
strings are lists of characters, Python floats are rationals, the
regular-expression subset actually occurring in the extraction patterns
is given an executable parser and backtracking matcher, and the mutating
methods are translated into explicit state passing.  Identity-field
extraction (Section A: company name, CIN, year, turnover) writes no
entry into `metrics_found` and is not referenced by any property below,
so it is not modelled; the numeric metric pipeline is modelled in full.
-/

set_option maxRecDepth 100000

namespace ESG

abbrev Chars := List Char

/-- Whitespace characters recognised by Python's `\s` and `str.strip`
(ASCII range, which is all that occurs in the modelled inputs). -/
def pySpace (c : Char) : Bool :=
  c = ' ' || c = '\t' || c = '\n' || c = '\r' || c = '\x0b' || c = '\x0c'

/-- `str.strip()`: drop leading and trailing whitespace. -/
def pyStrip (s : Chars) : Chars :=
  ((s.dropWhile pySpace).reverse.dropWhile pySpace).reverse

def toLowerList (s : Chars) : Chars := s.map Char.toLower

def natOfDigits (l : Chars) : Nat :=
  l.foldl (fun a c => a * 10 + (c.toNat - 48)) 0

/-- Python's `float(...)` builtin restricted to the decimal forms that can
reach it in `_clean_number` (optional sign, digits with at most one dot).
`none` models the `ValueError` branch. -/
def parseFloat? (s : Chars) : Option ℚ :=
  let (sign, rest) : ℚ × Chars :=
    match s with
    | '-' :: r => (-1, r)
    | '+' :: r => (1, r)
    | r => (1, r)
  let intPart := rest.takeWhile Char.isDigit
  let rest2 := rest.drop intPart.length
  match rest2 with
  | [] => if intPart.isEmpty then none else some (sign * natOfDigits intPart)
  | '.' :: frac =>
    if frac.all Char.isDigit && !(intPart.isEmpty && frac.isEmpty) then
      some (sign * ((natOfDigits intPart : ℚ) +
        (natOfDigits frac : ℚ) / ((10 : ℚ) ^ frac.length)))
    else none
  | _ => none

/-- The null-like tokens of `_clean_number`
(`['zero', 'nil', 'na', 'n/a', '-', '–', 'none', 'not applicable']`). -/
def nullTokens : List Chars :=
  ["zero", "nil", "na", "n/a", "-", "–", "none", "not applicable"].map String.data

def endsWithChars (s : Chars) (suf : Chars) : Bool :=
  decide (s.drop (s.length - suf.length) = suf) && decide (suf.length ≤ s.length)

def dropLastN (s : Chars) (n : Nat) : Chars := s.take (s.length - n)

/-- The cleaning pipeline of `_clean_number` after the null-token test:
separator/sign/percent/currency stripping, parenthesis-negation and the
magnitude-suffix multiplier.  Returns the multiplier and the cleaned
characters handed to `float(...)`. -/
def cleanStage (value : String) : ℚ × Chars :=
  let v := pyStrip value.data
  -- re.sub(r'[,\s]', '', value)
  let cleaned := v.filter (fun c => !(c = ',' || pySpace c))
  -- .replace('−', '-')  (Unicode minus)
  let cleaned := cleaned.map (fun c => if c = '−' then '-' else c)
  -- .replace('%', '')
  let cleaned := cleaned.filter (fun c => c ≠ '%')
  -- parentheses denote a negative number
  let cleaned :=
    if cleaned.head? = some '(' && cleaned.getLast? = some ')' then
      '-' :: dropLastN (cleaned.drop 1) 1
    else cleaned
  -- re.sub(r'[₹$€£¥]', '', cleaned)
  let cleaned := cleaned.filter (fun c => !(List.contains ['₹', '$', '€', '£', '¥'] c))
  -- magnitude suffixes (each alternative set is mutually exclusive as a
  -- suffix, so the (?i)...$ substitution drops exactly the suffix found)
  let low := toLowerList cleaned
  if endsWithChars low "cr".data || endsWithChars low "crore".data ||
      endsWithChars low "crores".data then
    (1, if endsWithChars low "crores".data then dropLastN cleaned 6
        else if endsWithChars low "crore".data then dropLastN cleaned 5
        else dropLastN cleaned 2)
  else if endsWithChars low "lakh".data || endsWithChars low "lakhs".data ||
      endsWithChars low "lac".data then
    (1/100, if endsWithChars low "lakhs".data then dropLastN cleaned 5
        else if endsWithChars low "lakh".data then dropLastN cleaned 4
        else dropLastN cleaned 3)
  else if endsWithChars low "mn".data || endsWithChars low "million".data then
    (1/10, if endsWithChars low "million".data then dropLastN cleaned 7
        else dropLastN cleaned 2)
  else (1, cleaned)

/-- `EnhancedBRSRParser._clean_number`: clean and convert an extracted
number string to a float.  Mirrors the source statement by statement. -/
def cleanNumber (value : String) (allowNegative : Bool) : ℚ :=
  if value.data.isEmpty then 0
  else if nullTokens.contains (toLowerList (pyStrip value.data)) then 0
  else
    match parseFloat? (cleanStage value).2 with
    | none => 0           -- except ValueError: return 0.0
    | some q =>
      let result := q * (cleanStage value).1
      if !allowNegative && result < 0 then -result else result

/-!
## Regular-expression engine

The extraction patterns use a small subset of Python `re` syntax:
literal characters, `.`, escapes `\d`/`\s` and escaped metacharacters,
character classes without ranges or negation, greedy `*`/`+`/`?`
quantifiers (`*`/`+` only ever on single-character atoms), capturing
and non-capturing groups, and alternation.  All searches are run with
`re.IGNORECASE` (and `re.MULTILINE`, irrelevant as no pattern contains
anchors).  The matcher below implements leftmost backtracking search
with the same preference order as Python: alternatives left to right,
quantifiers greedy.
-/

/-- A single-character atom of a pattern. -/
inductive CAtom where
  | ch (c : Char)     -- literal character, case-insensitive
  | digit             -- \d
  | space             -- \s
  deriving Repr, DecidableEq

/-- A character class: `neg` is true only for `.` (anything but newline). -/
structure Cls where
  neg : Bool
  atoms : List CAtom
  deriving Repr, DecidableEq

inductive RE where
  | eps
  | cls (c : Cls)
  | seq (a b : RE)
  | alt (a b : RE)
  | starCls (c : Cls)
  | opt (r : RE)
  | group (idx : Nat) (r : RE)
  deriving Repr

def matchCAtom (a : CAtom) (x : Char) : Bool :=
  match a with
  | .ch c => c.toLower = x.toLower
  | .digit => x.isDigit
  | .space => pySpace x

def matchCls (cl : Cls) (x : Char) : Bool :=
  if cl.neg then !(cl.atoms.any (matchCAtom · x)) else cl.atoms.any (matchCAtom · x)

/-- Captures recorded along the current backtracking path: group index
paired with the captured characters (most recent first). -/
abbrev Caps := List (Nat × Chars)

/-- A successful match continuation result: remaining suffix and captures. -/
abbrev MRes := Chars × Caps

/-- Greedy star over a class: try the continuation after consuming `j`
characters of the maximal run, longest first. -/
def tryLens (k : Chars → Caps → Option MRes) (caps : Caps) (s : Chars) :
    Nat → Option MRes
  | 0 => k s caps
  | j + 1 => (k (s.drop (j + 1)) caps) <|> tryLens k caps s j

/-- Backtracking matcher in continuation-passing style. -/
def mat : RE → Chars → Caps → (Chars → Caps → Option MRes) → Option MRes
  | .eps, s, caps, k => k s caps
  | .cls cl, s, caps, k =>
    match s with
    | [] => none
    | c :: rest => if matchCls cl c then k rest caps else none
  | .seq a b, s, caps, k => mat a s caps (fun s1 c1 => mat b s1 c1 k)
  | .alt a b, s, caps, k => (mat a s caps k) <|> (mat b s caps k)
  | .opt r, s, caps, k => (mat r s caps k) <|> k s caps
  | .starCls cl, s, caps, k => tryLens k caps s (s.takeWhile (matchCls cl)).length
  | .group i r, s, caps, k =>
    mat r s caps (fun s1 c1 => k s1 ((i, s.take (s.length - s1.length)) :: c1))

/-- One regex match: start and end offsets plus captures. -/
structure MatchInfo where
  mstart : Nat
  mend : Nat
  caps : Caps
  deriving Repr

/-- Try to match `re` at offset `i` of `text` (like Python anchored attempt
during scanning). -/
def matchAt (re : RE) (text : Chars) (i : Nat) : Option MatchInfo :=
  let s := text.drop i
  match mat re s [] (fun rem caps => some (rem, caps)) with
  | none => none
  | some (rem, caps) => some ⟨i, i + (s.length - rem.length), caps⟩

/-- All non-overlapping matches in scan order, as `re.finditer` yields them
(an empty match advances the scan position by one). -/
def scanMatches (re : RE) (text : Chars) : Nat → Nat → List MatchInfo
  | _, 0 => []
  | i, fuel + 1 =>
    if i > text.length then []
    else
      match matchAt re text i with
      | some m =>
        m :: scanMatches re text (if m.mend > i then m.mend else i + 1) fuel
      | none => scanMatches re text (i + 1) fuel

def allMatches (re : RE) (text : Chars) : List MatchInfo :=
  scanMatches re text 0 (text.length + 1)

/-- First match anywhere, as `re.search`. -/
def firstMatch (re : RE) (text : Chars) : Option MatchInfo :=
  (allMatches re text).head?

/-!
### Pattern parser

Translates the verbatim pattern strings of the source into `RE` values.
A pattern outside the supported subset yields `none`, which the callers
treat exactly like the `except` / `re.error` branch of the source: the
pattern is skipped.  All patterns actually used parse successfully.
-/

def escAtom (c : Char) : CAtom :=
  match c with
  | 'd' => .digit
  | 's' => .space
  | c => .ch c

def pClsItems : Nat → Chars → List CAtom → Option (List CAtom × Chars)
  | 0, _, _ => none
  | _, [], _ => none
  | f + 1, c :: rest, acc =>
    match c, rest with
    | ']', _ => some (acc.reverse, rest)
    | '\\', e :: rest2 => pClsItems f rest2 (escAtom e :: acc)
    | '\\', [] => none
    | c, _ => pClsItems f rest (.ch c :: acc)

def mkSeq (a b : RE) : RE :=
  match a with
  | .eps => b
  | a => match b with
    | .eps => a
    | b => .seq a b

/-- Apply a postfix quantifier to a parsed atom.  `inl` carries a
single-character class (quantifiable by `*`/`+`/`?`), `inr` a group
(only `?` occurs in the sources). -/
def applyQuant (a : Cls ⊕ RE) (q : Option Char) : Option RE :=
  match a, q with
  | .inl cl, none => some (.cls cl)
  | .inl cl, some '*' => some (.starCls cl)
  | .inl cl, some '+' => some (.seq (.cls cl) (.starCls cl))
  | .inl cl, some '?' => some (.opt (.cls cl))
  | .inr r, none => some r
  | .inr r, some '?' => some (.opt r)
  | .inr _, some _ => none
  | _, _ => none

mutual

def pAlt (f : Nat) (cs : Chars) (g : Nat) : Option (RE × Chars × Nat) :=
  match f with
  | 0 => none
  | f + 1 =>
    match pSeq f cs g .eps with
    | none => none
    | some (r, rest, g1) =>
      match rest with
      | '|' :: rest2 =>
        match pAlt f rest2 g1 with
        | none => none
        | some (r2, rest3, g2) => some (.alt r r2, rest3, g2)
      | _ => some (r, rest, g1)

def pSeq (f : Nat) (cs : Chars) (g : Nat) (acc : RE) : Option (RE × Chars × Nat) :=
  match f with
  | 0 => none
  | f + 1 =>
    match cs with
    | [] => some (acc, [], g)
    | '|' :: _ => some (acc, cs, g)
    | ')' :: _ => some (acc, cs, g)
    | _ =>
      match pAtom f cs g with
      | none => none
      | some (a, rest, g1) =>
        let (q, rest2) : Option Char × Chars :=
          match rest with
          | '*' :: r => (some '*', r)
          | '+' :: r => (some '+', r)
          | '?' :: r => (some '?', r)
          | r => (none, r)
        match applyQuant a q with
        | none => none
        | some re => pSeq f rest2 g1 (mkSeq acc re)

def pAtom (f : Nat) (cs : Chars) (g : Nat) : Option ((Cls ⊕ RE) × Chars × Nat) :=
  match f with
  | 0 => none
  | f + 1 =>
    match cs with
    | [] => none
    | '\\' :: e :: rest => some (.inl ⟨false, [escAtom e]⟩, rest, g)
    | '\\' :: [] => none
    | '.' :: rest => some (.inl ⟨true, [.ch '\n']⟩, rest, g)
    | '[' :: rest =>
      match pClsItems (rest.length + 1) rest [] with
      | none => none
      | some (atoms, rest2) => some (.inl ⟨false, atoms⟩, rest2, g)
    | '(' :: '?' :: ':' :: rest =>
      match pAlt f rest g with
      | none => none
      | some (r, rest2, g1) =>
        match rest2 with
        | ')' :: rest3 => some (.inr r, rest3, g1)
        | _ => none
    | '(' :: '?' :: _ => none
    | '(' :: rest =>
      match pAlt f rest (g + 1) with
      | none => none
      | some (r, rest2, g1) =>
        match rest2 with
        | ')' :: rest3 => some (.inr (.group (g + 1) r), rest3, g1)
        | _ => none
    | ')' :: _ => none
    | '|' :: _ => none
    | '*' :: _ => none
    | '+' :: _ => none
    | '?' :: _ => none
    | c :: rest => some (.inl ⟨false, [.ch c]⟩, rest, g)

end

/-- Parse a pattern string; returns the regex and its number of
capturing groups. -/
def parseRegex (p : String) : Option (RE × Nat) :=
  let cs := p.data
  match pAlt ((cs.length + 2) * (cs.length + 2)) cs 0 with
  | some (r, [], g) => some (r, g)
  | _ => none

/-- First `some` produced by `f` along a list (models Python early return
from a loop). -/
def firstSome (l : List α) (f : α → Option β) : Option β :=
  match l with
  | [] => none
  | x :: xs =>
    match f x with
    | some y => some y
    | none => firstSome xs f

/-- The substring `text[a:b]` (Python slice with `0 ≤ a ≤ b`). -/
def slice (text : Chars) (a b : Nat) : Chars := (text.drop a).take (b - a)

/-- `EnhancedBRSRParser._extract_first_number`: extract the first number
from `text`, optionally narrowing to the first match of `pat` first. -/
def extractFirstNumber (pat : Option String) (text : Chars) : ℚ :=
  if text.isEmpty then 0
  else
    let text :=
      match pat with
      | none => text
      | some p =>
        match parseRegex p with
        | none => text
        | some (re, _) =>
          match firstMatch re text with
          | some m => slice text m.mstart m.mend
          | none => text
    match parseRegex (r"[\d,]+\.?\d*") with
    | none => 0
    | some (re, _) =>
      match firstMatch re text with
      | some m => cleanNumber (String.mk (slice text m.mstart m.mend)) false
      | none => 0

/-- The guard `if num > 0: return num` of the search helpers. -/
def posOnly (q : ℚ) : Option ℚ := if q > 0 then some q else none

/-- The group tuple `match.groups()` in group-number order. -/
def groupsOf (m : MatchInfo) (n : Nat) : List (Option Chars) :=
  (List.range n).map (fun j => (m.caps.lookup (j + 1)))

/-- The candidate value a single regex match contributes in
`_search_patterns`: the first truthy group that cleans to a positive
number, or — for a pattern without groups — the first positive number in
a context window around the match. -/
def matchValue (text : Chars) (ngroups : Nat) (m : MatchInfo) : Option ℚ :=
  if ngroups > 0 then
    firstSome (groupsOf m ngroups) (fun g =>
      match g with
      | some s => if !s.isEmpty then posOnly (cleanNumber (String.mk s) false) else none
      | none => none)
  else
    posOnly (extractFirstNumber none
      (slice text (m.mstart - 10) (min text.length (m.mend + 100))))

/-- The value one pattern contributes in `_search_patterns`: the first
match (in scan order) yielding a positive number.  An unparsable pattern
behaves like the `except` branch: it is skipped. -/
def patternValue (p : String) (text : Chars) : Option ℚ :=
  match parseRegex p with
  | none => none
  | some (re, ngroups) => firstSome (allMatches re text) (matchValue text ngroups)

/-- `EnhancedBRSRParser._search_patterns`: search multiple patterns and
return the first (positive) match. -/
def searchPatterns (patterns : List String) (text : Chars) : Option ℚ :=
  firstSome patterns (fun p => patternValue p text)

/-- `re.search(pattern, text, re.IGNORECASE)` as a Boolean test. -/
def regexTest (p : String) (text : Chars) : Bool :=
  match parseRegex p with
  | none => false
  | some (re, _) => (firstMatch re text).isSome

/-- `' '.join(str(cell) if cell else '' for cell in row).lower()` -/
def rowTextOf (row : List String) : Chars :=
  toLowerList ((String.intercalate " " row).data)

/-- `EnhancedBRSRParser._search_table_patterns`: search extracted tables
for rows matching the label patterns; on a hit take the given column or
the rightmost cell holding a positive number.  `colIndex` is `none` for
the source's default `-1`. -/
def searchTablePatterns (rowPatterns : List String) (colIndex : Option Nat)
    (tables : List (List (List String))) : Option ℚ :=
  firstSome tables (fun table =>
    if table.isEmpty then none
    else firstSome table (fun row =>
      if row.isEmpty then none
      else
        let rowText := rowTextOf row
        firstSome rowPatterns (fun p =>
          if regexTest p rowText then
            match colIndex with
            | some ci =>
              if ci < row.length then posOnly (cleanNumber (row.getD ci "") false)
              else firstSome row.reverse (fun cell => posOnly (cleanNumber cell false))
            | none =>
              firstSome row.reverse (fun cell => posOnly (cleanNumber cell false))
          else none)))

/-!
## Extraction state helpers

Python guard idioms of the extractors, on the `Optional[float]` result of
`_search_patterns` / `_search_table_patterns`:
`if result:`, `if result and <guard>:`, `if result is not None:`.
-/

/-- Python truthiness of an `Optional[float]`. -/
def pyTruthy (r : Option ℚ) : Bool :=
  match r with
  | some v => v ≠ 0
  | none => false

/-- `int(x)` on a float: truncation toward zero. -/
def pyTrunc (q : ℚ) : ℚ := ((Int.tdiv q.num (q.den : ℤ) : ℤ) : ℚ)

/-- Field value for `if result and <g>: field = f(result)` (default 0). -/
def guardVal (r : Option ℚ) (g : ℚ → Bool) (f : ℚ → ℚ) : ℚ :=
  match r with
  | some v => if v ≠ 0 && g v then f v else 0
  | none => 0

/-- Condition of `if result and <g>:` as a Boolean. -/
def guardHit (r : Option ℚ) (g : ℚ → Bool) : Bool :=
  match r with
  | some v => v ≠ 0 && g v
  | none => false

/-- Field value for `if result is not None: field = f(result)` (default 0). -/
def someVal (r : Option ℚ) (f : ℚ → ℚ) : ℚ :=
  match r with
  | some v => f v
  | none => 0

/-!
## Metric records

The three dataclasses `EnvironmentalMetrics`, `SocialMetrics` and
`GovernanceMetrics`, restricted to the fields the modelled methods read
or write (all remaining dataclass fields keep their constant defaults in
the source and are never consulted).  Numeric defaults are 0 as in the
source; `int`-typed fields hold truncated values.
-/

structure EnvironmentalMetrics where
  total_energy_consumption : ℚ := 0
  renewable_energy : ℚ := 0
  renewable_energy_percentage : ℚ := 0
  energy_intensity : ℚ := 0
  scope1_emissions : ℚ := 0
  scope2_emissions : ℚ := 0
  scope3_emissions : ℚ := 0
  total_ghg_emissions : ℚ := 0
  emission_intensity : ℚ := 0
  total_water_withdrawal : ℚ := 0
  water_recycled : ℚ := 0
  water_recycling_percentage : ℚ := 0
  water_intensity : ℚ := 0
  zero_liquid_discharge : Bool := false
  total_waste_generated : ℚ := 0
  hazardous_waste : ℚ := 0
  waste_recycled : ℚ := 0
  waste_recycling_percentage : ℚ := 0
  e_waste : ℚ := 0
  plastic_waste : ℚ := 0
  environmental_fines : ℚ := 0
  environmental_fines_count : ℚ := 0
  deriving DecidableEq

structure SocialMetrics where
  total_employees : ℚ := 0
  women_employees : ℚ := 0
  female_employees : ℚ := 0
  women_percentage : ℚ := 0
  workers_total : ℚ := 0
  differently_abled : ℚ := 0
  ltifr : ℚ := 0
  ltifr_employees : ℚ := 0
  fatalities : ℚ := 0
  recordable_injuries : ℚ := 0
  man_days_lost : ℚ := 0
  training_hours_per_employee : ℚ := 0
  total_training_hours : ℚ := 0
  turnover_rate : ℚ := 0
  child_labor_incidents : ℚ := 0
  forced_labor_incidents : ℚ := 0
  sexual_harassment_complaints : ℚ := 0
  discrimination_incidents : ℚ := 0
  csr_spending : ℚ := 0
  csr_spending_required : ℚ := 0
  csr_percentage : ℚ := 0
  customer_complaints : ℚ := 0
  customer_complaints_resolved : ℚ := 0
  resolution_rate : ℚ := 0
  data_breaches : ℚ := 0
  cyber_security_incidents : ℚ := 0
  deriving DecidableEq

structure GovernanceMetrics where
  board_size : ℚ := 0
  independent_directors : ℚ := 0
  independent_percentage : ℚ := 0
  women_directors : ℚ := 0
  women_board_percentage : ℚ := 0
  board_meetings : ℚ := 0
  audit_committee_meetings : ℚ := 0
  csr_committee_meetings : ℚ := 0
  ethics_complaints : ℚ := 0
  corruption_incidents : ℚ := 0
  whistleblower_complaints : ℚ := 0
  fines_penalties_amount : ℚ := 0
  -- `ceo_to_median_ratio` in the source
  ceo_to_median_multiple : ℚ := 0
  employees_trained_anti_corruption : ℚ := 0
  deriving DecidableEq

/-!
## `_extract_environmental` (Section C, Principle 6)

Pattern lists are the verbatim pattern strings of the source.  The
sequential field mutations of the method are translated into one final
expression per field (each field is written at most twice, and every
read happens after all writes to the field read, so this is the exact
data flow of the source); the `self.metrics_found[...]` insertions are
collected in source order in an update log returned alongside.
-/

def energyPatterns : List String :=
  [r"total\s+energy\s+consumption[:\s]*([\d,]+\.?\d*)\s*(?:GJ|TJ|Giga\s*Joule)",
   r"energy\s+(?:consumption|consumed)[:\s]*([\d,]+\.?\d*)\s*(?:GJ|TJ)",
   r"([\d,]+\.?\d*)\s*(?:GJ|TJ|Giga\s*Joule)\s*(?:total)?\s*energy",
   r"total\s+energy[:\s]*([\d,]+\.?\d*)"]

def energyTablePatterns : List String :=
  [r"total\s+energy", r"energy\s+consumption", r"total\s+\(a\+b\)"]

def renewablePatterns : List String :=
  [r"renewable\s+(?:energy\s+)?(?:sources?|consumption)[:\s]*([\d,]+\.?\d*)\s*(?:GJ|TJ|%)",
   r"from\s+renewable\s+sources?[:\s]*([\d,]+\.?\d*)",
   r"([\d,]+\.?\d*)\s*(?:GJ|%)?\s*renewable",
   r"biomass|solar|wind|hydro[:\s]*([\d,]+\.?\d*)"]

def energyIntensityPatterns : List String :=
  [r"energy\s+intensity[:\s]*([\d,]+\.?\d*)",
   r"([\d,]+\.?\d*)\s*(?:GJ|MWh)\s*per\s*(?:crore|unit|rupee|revenue)"]

def scope1Patterns : List String :=
  [r"scope\s*[-–]?\s*1[:\s]*([\d,]+\.?\d*)\s*(?:tCO2e?|MT|metric\s*tonnes?|tonnes?)",
   r"direct\s+(?:ghg\s+)?emissions?[:\s]*([\d,]+\.?\d*)\s*(?:tCO2e?|MT)",
   r"([\d,]+\.?\d*)\s*(?:tCO2e?|MT)\s*(?:scope\s*[-–]?\s*1|direct)"]

def scope2Patterns : List String :=
  [r"scope\s*[-–]?\s*2[:\s]*([\d,]+\.?\d*)\s*(?:tCO2e?|MT|metric\s*tonnes?|tonnes?)",
   r"indirect\s+(?:ghg\s+)?emissions?[:\s]*([\d,]+\.?\d*)\s*(?:tCO2e?|MT)",
   r"([\d,]+\.?\d*)\s*(?:tCO2e?|MT)\s*(?:scope\s*[-–]?\s*2|indirect)"]

def scope3Patterns : List String :=
  [r"scope\s*[-–]?\s*3[:\s]*([\d,]+\.?\d*)\s*(?:tCO2e?|MT)"]

def totalGhgPatterns : List String :=
  [r"total\s+(?:ghg|greenhouse\s+gas)\s+emissions?[:\s]*([\d,]+\.?\d*)",
   r"([\d,]+\.?\d*)\s*(?:tCO2e?|MT)\s*total\s+(?:ghg|greenhouse|emission)"]

def emissionIntensityPatterns : List String :=
  [r"(?:ghg|emission)\s+intensity[:\s]*([\d,]+\.?\d*)",
   r"([\d,]+\.?\d*)\s*(?:tCO2e?)\s*per\s*(?:crore|unit|revenue)"]

def waterPatterns : List String :=
  [r"total\s+(?:water\s+)?(?:withdrawal|consumption|usage|drawn)[:\s]*([\d,]+\.?\d*)\s*(?:KL|ML|kilolitre|m3|cubic)",
   r"water\s+(?:withdrawn?|consumed|usage)[:\s]*([\d,]+\.?\d*)",
   r"([\d,]+\.?\d*)\s*(?:KL|ML|kilolitre)\s*(?:water|total)"]

def waterRecycledPatterns : List String :=
  [r"water\s+(?:recycled|reused|reclaimed)[:\s]*([\d,]+\.?\d*)\s*(?:KL|ML|%)?",
   r"recycled\s+(?:and\s+reused\s+)?water[:\s]*([\d,]+\.?\d*)",
   r"([\d,]+\.?\d*)\s*(?:KL|ML|%)?\s*(?:water\s+)?recycled"]

def zldRegex : String := r"zero\s+liquid\s+discharge|ZLD"

def wastePatterns : List String :=
  [r"total\s+waste\s+(?:generated|produced)[:\s]*([\d,]+\.?\d*)\s*(?:MT|tonnes?|metric)",
   r"waste\s+generation[:\s]*([\d,]+\.?\d*)",
   r"([\d,]+\.?\d*)\s*(?:MT|tonnes?)\s*(?:total)?\s*waste"]

def hazardousPatterns : List String :=
  [r"hazardous\s+waste[:\s]*([\d,]+\.?\d*)\s*(?:MT|tonnes?|kg)",
   r"([\d,]+\.?\d*)\s*(?:MT|tonnes?|kg)\s*hazardous"]

def wasteRecycledPatterns : List String :=
  [r"waste\s+(?:recycled|recovered|diverted)[:\s]*([\d,]+\.?\d*)\s*(?:MT|%)?",
   r"recycling\s+rate[:\s]*([\d,]+\.?\d*)\s*%?",
   r"([\d,]+\.?\d*)\s*%?\s*(?:waste\s+)?(?:recycled|diverted|recovered)"]

def ewastePatterns : List String :=
  [r"e[-\s]?waste[:\s]*([\d,]+\.?\d*)\s*(?:MT|tonnes?|kg)"]

def plasticPatterns : List String :=
  [r"plastic\s+waste[:\s]*([\d,]+\.?\d*)\s*(?:MT|tonnes?|kg)"]

def finesPatterns : List String :=
  [r"environmental\s+(?:fine|penalt)[:\s]*(?:₹|Rs\.?)?\s*([\d,]+\.?\d*)",
   r"([\d,]+\.?\d*)\s*(?:Cr|Lakh)?\s*(?:fine|penalt)"]

def noFinesRegex : String :=
  r"no\s+(?:environmental\s+)?fines?|nil\s+(?:environmental\s+)?fines?|zero\s+fines?"

def extractEnvironmental (text : Chars) (tables : List (List (List String))) :
    EnvironmentalMetrics × List (String × ℚ) :=
  let rEn := searchPatterns energyPatterns text
  let te1 := guardVal rEn (fun _ => true) id
  -- table fallback, tried only while total_energy_consumption == 0
  let rEnT := searchTablePatterns energyTablePatterns none tables
  let te := if te1 = 0 then guardVal rEnT (fun _ => true) id else te1
  let rRen := searchPatterns renewablePatterns text
  let renewable := guardVal rRen (fun v => !(v ≤ 100)) id
  let renewablePct1 := guardVal rRen (fun v => v ≤ 100) id
  let renewablePct :=
    if renewable > 0 ∧ te > 0 then renewable / te * 100 else renewablePct1
  let rEi := searchPatterns energyIntensityPatterns text
  let rS1 := searchPatterns scope1Patterns text
  let s1 := guardVal rS1 (fun _ => true) id
  let rS2 := searchPatterns scope2Patterns text
  let s2 := guardVal rS2 (fun _ => true) id
  let rS3 := searchPatterns scope3Patterns text
  let rGhg := searchPatterns totalGhgPatterns text
  let ghg := if pyTruthy rGhg then guardVal rGhg (fun _ => true) id else s1 + s2
  let rEmi := searchPatterns emissionIntensityPatterns text
  let rWat := searchPatterns waterPatterns text
  let water := guardVal rWat (fun _ => true) id
  let rWr := searchPatterns waterRecycledPatterns text
  let waterRec := guardVal rWr (fun v => !(v ≤ 100)) id
  let waterRecPct1 := guardVal rWr (fun v => v ≤ 100) id
  let waterRecPct :=
    if waterRec > 0 ∧ water > 0 then waterRec / water * 100 else waterRecPct1
  let rWaste := searchPatterns wastePatterns text
  let waste := guardVal rWaste (fun _ => true) id
  let rHaz := searchPatterns hazardousPatterns text
  let rWasteRec := searchPatterns wasteRecycledPatterns text
  let wasteRec := guardVal rWasteRec (fun v => !(v ≤ 100)) id
  let wasteRecPct := guardVal rWasteRec (fun v => v ≤ 100) id
  let rEw := searchPatterns ewastePatterns text
  let rPl := searchPatterns plasticPatterns text
  let rFines := searchPatterns finesPatterns text
  let fines1 := guardVal rFines (fun _ => true) id
  let fines := if regexTest noFinesRegex text then 0 else fines1
  let m : EnvironmentalMetrics :=
    { total_energy_consumption := te
      renewable_energy := renewable
      renewable_energy_percentage := renewablePct
      energy_intensity := guardVal rEi (fun _ => true) id
      scope1_emissions := s1
      scope2_emissions := s2
      scope3_emissions := guardVal rS3 (fun _ => true) id
      total_ghg_emissions := ghg
      emission_intensity := guardVal rEmi (fun _ => true) id
      total_water_withdrawal := water
      water_recycled := waterRec
      water_recycling_percentage := waterRecPct
      zero_liquid_discharge := regexTest zldRegex text
      total_waste_generated := waste
      hazardous_waste := guardVal rHaz (fun _ => true) id
      waste_recycled := wasteRec
      waste_recycling_percentage := wasteRecPct
      e_waste := guardVal rEw (fun _ => true) id
      plastic_waste := guardVal rPl (fun _ => true) id
      environmental_fines := fines }
  let log : List (String × ℚ) :=
    (if guardHit rEn (fun _ => true) then
      [("total_energy_consumption", guardVal rEn (fun _ => true) id)] else []) ++
    (if guardHit rRen (fun _ => true) then
      [("renewable_energy", guardVal rRen (fun _ => true) id)] else []) ++
    (if guardHit rS1 (fun _ => true) then [("scope1_emissions", s1)] else []) ++
    (if guardHit rS2 (fun _ => true) then [("scope2_emissions", s2)] else []) ++
    (if ghg > 0 then [("total_ghg_emissions", ghg)] else []) ++
    (if guardHit rWat (fun _ => true) then [("total_water_withdrawal", water)] else []) ++
    (if guardHit rWr (fun _ => true) then
      [("water_recycled", guardVal rWr (fun _ => true) id)] else []) ++
    (if guardHit rWaste (fun _ => true) then [("total_waste_generated", waste)] else []) ++
    (if guardHit rWasteRec (fun _ => true) then
      [("waste_recycled", guardVal rWasteRec (fun _ => true) id)] else [])
  (m, log)

/-!
## `_extract_social` (Section C, Principles 3, 5, 8, 9)
-/

def employeePatterns : List String :=
  [r"total\s+(?:number\s+of\s+)?employees?[:\s]*([\d,]+)",
   r"total\s+(?:permanent\s+)?employees?[:\s]*([\d,]+)",
   r"employees?\s+(?:strength|count|headcount)[:\s]*([\d,]+)",
   r"([\d,]+)\s*(?:total\s+)?employees?",
   r"headcount[:\s]*([\d,]+)",
   r"workforce[:\s]*([\d,]+)"]

def employeeTablePatterns : List String :=
  [r"total\s+employees", r"permanent\s+employees", r"total\s+\(d\s*="]

def womenPatterns : List String :=
  [r"(?:female|women)\s+employees?[:\s]*([\d,]+)",
   r"([\d,]+)\s*(?:female|women)\s+(?:employees?|workers?)",
   r"women\s+(?:in\s+workforce)?[:\s]*([\d,]+)"]

def womenPctPatterns : List String :=
  [r"(?:female|women)[:\s]*([\d,]+\.?\d*)\s*%",
   r"([\d,]+\.?\d*)\s*%\s*(?:are\s+)?(?:female|women)",
   r"(?:female|women)\s+representation[:\s]*([\d,]+\.?\d*)\s*%?"]

def workersPatterns : List String :=
  [r"total\s+(?:number\s+of\s+)?workers?[:\s]*([\d,]+)",
   r"workers?\s+(?:strength|count)[:\s]*([\d,]+)"]

def pwdPatterns : List String :=
  [r"(?:differently\s+abled|persons?\s+with\s+disabilities?|PwD)[:\s]*([\d,]+)"]

def ltifrPatterns : List String :=
  [r"LTIFR[:\s]*([\d,]+\.?\d*)",
   r"lost\s+time\s+injury\s+frequency\s+rate[:\s]*([\d,]+\.?\d*)",
   r"([\d,]+\.?\d*)\s*LTIFR"]

def fatalityPatterns : List String :=
  [r"fatalities?[:\s]*([\d,]+)",
   r"([\d,]+)\s*fatalities?",
   r"(?:work[- ]?related\s+)?deaths?[:\s]*([\d,]+)"]

def zeroFatalitiesRegex : String :=
  r"zero\s+fatalities?|no\s+fatalities?|nil\s+fatalities?|fatalities?[:\s]*(?:nil|zero|0)"

def injuryPatterns : List String :=
  [r"(?:recordable|total)\s+(?:work[- ]?related\s+)?injuries?[:\s]*([\d,]+)",
   r"([\d,]+)\s*(?:recordable|total)\s+injuries?",
   r"TRIR[:\s]*([\d,]+\.?\d*)"]

def mandaysPatterns : List String :=
  [r"(?:man[-\s]?days?|person[-\s]?days?)\s+lost[:\s]*([\d,]+)",
   r"([\d,]+)\s*(?:man[-\s]?days?|person[-\s]?days?)\s+lost"]

def trainingPatterns : List String :=
  [r"(?:average\s+)?training\s+(?:hours?|hrs?)\s*(?:per\s+)?(?:employee)?[:\s]*([\d,]+\.?\d*)",
   r"([\d,]+\.?\d*)\s*(?:hours?|hrs?)\s*(?:of\s+)?training",
   r"training[:\s]*([\d,]+\.?\d*)\s*(?:hours?|hrs?)"]

def turnoverPatterns : List String :=
  [r"(?:employee\s+)?turnover\s+(?:rate)?[:\s]*([\d,]+\.?\d*)\s*%?",
   r"attrition\s+(?:rate)?[:\s]*([\d,]+\.?\d*)\s*%?",
   r"([\d,]+\.?\d*)\s*%?\s*(?:employee\s+)?(?:turnover|attrition)"]

def childLaborPatterns : List String :=
  [r"child\s+labo[u]?r\s+(?:incidents?|cases?|complaints?)[:\s]*([\d,]+)"]

def noChildLaborRegex : String :=
  r"no\s+child\s+labo[u]?r|zero\s+child\s+labo[u]?r|nil.*child\s+labo[u]?r"

def noForcedLaborRegex : String :=
  r"no\s+forced\s+labo[u]?r|zero\s+forced\s+labo[u]?r"

def poshPatterns : List String :=
  [r"(?:sexual\s+harassment|POSH)\s+(?:complaints?|cases?)[:\s]*([\d,]+)",
   r"([\d,]+)\s*(?:sexual\s+harassment|POSH)\s+(?:complaints?|cases?)"]

def discriminationPatterns : List String :=
  [r"discrimination\s+(?:complaints?|cases?|incidents?)[:\s]*([\d,]+)"]

def csrPatterns : List String :=
  [r"CSR\s+(?:expenditure|spending|spend|amount)[:\s]*(?:₹|Rs\.?)?\s*([\d,]+\.?\d*)\s*(?:Cr|Crore|Lakh)?",
   r"(?:₹|Rs\.?)?\s*([\d,]+\.?\d*)\s*(?:Cr|Crore|Lakh)?\s*(?:on\s+|towards?\s+)?CSR",
   r"amount\s+spent\s+(?:on\s+)?CSR[:\s]*(?:₹|Rs\.?)?\s*([\d,]+\.?\d*)"]

def csrRequiredPatterns : List String :=
  [r"CSR\s+obligation[:\s]*(?:₹|Rs\.?)?\s*([\d,]+\.?\d*)",
   r"(?:2%\s+of\s+average\s+net\s+profit|prescribed\s+CSR)[:\s]*(?:₹|Rs\.?)?\s*([\d,]+\.?\d*)"]

def customerComplaintPatterns : List String :=
  [r"(?:customer|consumer)\s+complaints?\s+(?:received|filed)[:\s]*([\d,]+)",
   r"([\d,]+)\s*(?:customer|consumer)\s+complaints?",
   r"complaints?\s+received[:\s]*([\d,]+)"]

def resolvedPatterns : List String :=
  [r"complaints?\s+(?:resolved|addressed)[:\s]*([\d,]+)",
   r"([\d,]+)\s*complaints?\s+resolved"]

def breachPatterns : List String :=
  [r"(?:data|security)\s+breach(?:es)?[:\s]*([\d,]+)",
   r"cyber\s+(?:security\s+)?incidents?[:\s]*([\d,]+)"]

def noBreachRegex : String :=
  r"no\s+(?:data\s+)?breach|zero\s+(?:data\s+)?breach|nil.*breach"

def extractSocial (text : Chars) (tables : List (List (List String))) :
    SocialMetrics × List (String × ℚ) :=
  let rEmp := searchPatterns employeePatterns text
  let emp1 := guardVal rEmp (fun v => 10 < v) pyTrunc
  -- table fallback, tried only while total_employees == 0
  let rEmpT := searchTablePatterns employeeTablePatterns none tables
  let emp := if emp1 = 0 then guardVal rEmpT (fun v => 10 < v) pyTrunc else emp1
  let rWom := searchPatterns womenPatterns text
  let women := guardVal rWom (fun _ => true) pyTrunc
  let rWomPct := searchPatterns womenPctPatterns text
  let womenPct1 := guardVal rWomPct (fun v => v ≤ 100) id
  let womenPct :=
    if womenPct1 = 0 ∧ women > 0 ∧ emp > 0 then women / emp * 100 else womenPct1
  let rWork := searchPatterns workersPatterns text
  let rPwd := searchPatterns pwdPatterns text
  let rLtifr := searchPatterns ltifrPatterns text
  let ltifrV := guardVal rLtifr (fun v => v < 100) id
  let rFat := searchPatterns fatalityPatterns text
  let fat1 := someVal rFat pyTrunc
  let fat := if regexTest zeroFatalitiesRegex text then 0 else fat1
  let rInj := searchPatterns injuryPatterns text
  let rMd := searchPatterns mandaysPatterns text
  let rTrain := searchPatterns trainingPatterns text
  let trainPer1 := guardVal rTrain (fun v => v < 500) id
  let trainTotal := guardVal rTrain (fun v => !(v < 500)) id
  let trainPer :=
    if trainPer1 = 0 ∧ trainTotal > 0 ∧ emp > 0 then trainTotal / emp else trainPer1
  let rTurn := searchPatterns turnoverPatterns text
  let rChild := searchPatterns childLaborPatterns text
  let child1 := someVal rChild pyTrunc
  let child := if regexTest noChildLaborRegex text then 0 else child1
  let rPosh := searchPatterns poshPatterns text
  let rDisc := searchPatterns discriminationPatterns text
  let rCsr := searchPatterns csrPatterns text
  let csr := guardVal rCsr (fun _ => true) id
  let rCsrReq := searchPatterns csrRequiredPatterns text
  let csrReq := guardVal rCsrReq (fun _ => true) id
  let rCust := searchPatterns customerComplaintPatterns text
  let cust := guardVal rCust (fun _ => true) pyTrunc
  let rRes := searchPatterns resolvedPatterns text
  let res := guardVal rRes (fun _ => true) pyTrunc
  let rBr := searchPatterns breachPatterns text
  let breach1 := someVal rBr pyTrunc
  let breach := if regexTest noBreachRegex text then 0 else breach1
  let m : SocialMetrics :=
    { total_employees := emp
      women_employees := women
      female_employees := women
      women_percentage := womenPct
      workers_total := guardVal rWork (fun _ => true) pyTrunc
      differently_abled := guardVal rPwd (fun _ => true) pyTrunc
      ltifr := ltifrV
      fatalities := fat
      recordable_injuries := guardVal rInj (fun _ => true) pyTrunc
      man_days_lost := guardVal rMd (fun _ => true) pyTrunc
      training_hours_per_employee := trainPer
      total_training_hours := trainTotal
      turnover_rate := guardVal rTurn (fun v => v ≤ 100) id
      child_labor_incidents := child
      -- `forced_labor_incidents` is only ever set to its default 0
      forced_labor_incidents := 0
      sexual_harassment_complaints := someVal rPosh pyTrunc
      discrimination_incidents := someVal rDisc pyTrunc
      csr_spending := csr
      csr_spending_required := csrReq
      csr_percentage := if csr > 0 ∧ csrReq > 0 then csr / csrReq * 100 else 0
      customer_complaints := cust
      customer_complaints_resolved := res
      resolution_rate := if cust > 0 ∧ res > 0 then res / cust * 100 else 0
      data_breaches := breach }
  let log : List (String × ℚ) :=
    (if guardHit rEmp (fun v => 10 < v) then [("total_employees", emp1)] else []) ++
    (if guardHit rWom (fun _ => true) then [("women_employees", women)] else []) ++
    (if guardHit rLtifr (fun v => v < 100) then [("ltifr", ltifrV)] else []) ++
    (if rFat.isSome then [("fatalities", fat1)] else []) ++
    (if regexTest zeroFatalitiesRegex text then [("fatalities", 0)] else []) ++
    (if guardHit rTrain (fun _ => true) then
      [("training_hours", guardVal rTrain (fun _ => true) id)] else []) ++
    (if guardHit rCsr (fun _ => true) then [("csr_spending", csr)] else [])
  (m, log)

/-!
## `_extract_governance` (Section C, Principle 1)
-/

def boardPatterns : List String :=
  [r"board\s+(?:of\s+directors?\s+)?(?:comprises?|consists?\s+of|has)[:\s]*([\d,]+)\s*(?:directors?|members?)",
   r"([\d,]+)\s*directors?\s+(?:on\s+)?(?:the\s+)?board",
   r"board\s+(?:strength|size)[:\s]*([\d,]+)",
   r"total\s+(?:number\s+of\s+)?directors?[:\s]*([\d,]+)"]

def independentPatterns : List String :=
  [r"independent\s+directors?[:\s]*([\d,]+)",
   r"([\d,]+)\s*independent\s+directors?",
   r"non[-\s]?executive\s+independent[:\s]*([\d,]+)"]

def womenBoardPatterns : List String :=
  [r"(?:women|female)\s+directors?[:\s]*([\d,]+)",
   r"([\d,]+)\s*(?:women|female)\s+(?:on\s+)?(?:the\s+)?board"]

def boardMeetingPatterns : List String :=
  [r"board\s+(?:of\s+directors?\s+)?(?:met|meetings?)[:\s]*([\d,]+)\s*(?:times?|meetings?)?",
   r"([\d,]+)\s*board\s+meetings?",
   r"number\s+of\s+board\s+meetings?[:\s]*([\d,]+)"]

def auditPatterns : List String :=
  [r"audit\s+committee[:\s]*(?:met\s+)?([\d,]+)\s*(?:times?|meetings?)",
   r"([\d,]+)\s*audit\s+committee\s+meetings?"]

def csrCommPatterns : List String :=
  [r"CSR\s+committee[:\s]*(?:met\s+)?([\d,]+)\s*(?:times?|meetings?)",
   r"([\d,]+)\s*CSR\s+committee\s+meetings?"]

def ethicsPatterns : List String :=
  [r"(?:ethics?|code\s+of\s+conduct)\s+(?:complaints?|violations?|breaches?)[:\s]*([\d,]+)"]

def corruptionPatterns : List String :=
  [r"corruption\s+(?:incidents?|cases?)[:\s]*([\d,]+)",
   r"bribery\s+(?:incidents?|cases?)[:\s]*([\d,]+)"]

def noCorruptionRegex : String :=
  r"no\s+(?:corruption|bribery)|zero\s+(?:corruption|bribery)"

def whistlePatterns : List String :=
  [r"whistle[-\s]?blower\s+(?:complaints?|cases?)[:\s]*([\d,]+)",
   r"vigil\s+mechanism\s+(?:complaints?|cases?)[:\s]*([\d,]+)"]

def penaltyPatterns : List String :=
  [r"(?:fines?|penalties?)\s+(?:paid|imposed)[:\s]*(?:₹|Rs\.?)?\s*([\d,]+\.?\d*)\s*(?:Cr|Lakh)?",
   r"(?:₹|Rs\.?)?\s*([\d,]+\.?\d*)\s*(?:Cr|Lakh)?\s*(?:fines?|penalties?)"]

def ceoRatioPatterns : List String :=
  [r"(?:CEO|MD)\s*(?:to\s+)?median\s+(?:employee\s+)?(?:ratio|remuneration)[:\s]*([\d,]+\.?\d*)",
   r"ratio\s+of[:\s]*([\d,]+\.?\d*)\s*(?:times?|x)"]

def anticorrTrainingPatterns : List String :=
  [r"(?:anti[-\s]?corruption|ethics?)\s+training[:\s]*([\d,]+\.?\d*)\s*%?",
   r"([\d,]+\.?\d*)\s*%?\s*(?:trained\s+on\s+)?(?:anti[-\s]?corruption|ethics?)"]

def extractGovernance (text : Chars) : GovernanceMetrics × List (String × ℚ) :=
  let rBoard := searchPatterns boardPatterns text
  let size := guardVal rBoard (fun v => 3 ≤ v && v ≤ 25) pyTrunc
  let rInd := searchPatterns independentPatterns text
  let ind := guardVal rInd (fun _ => true) pyTrunc
  let rWb := searchPatterns womenBoardPatterns text
  let wdir := guardVal rWb (fun _ => true) pyTrunc
  let rBm := searchPatterns boardMeetingPatterns text
  let bm := guardVal rBm (fun v => v ≤ 20) pyTrunc
  let rAud := searchPatterns auditPatterns text
  let rCsrC := searchPatterns csrCommPatterns text
  let rEth := searchPatterns ethicsPatterns text
  let rCorr := searchPatterns corruptionPatterns text
  let corr1 := someVal rCorr pyTrunc
  let corr := if regexTest noCorruptionRegex text then 0 else corr1
  let rWh := searchPatterns whistlePatterns text
  let rPen := searchPatterns penaltyPatterns text
  let rRatio := searchPatterns ceoRatioPatterns text
  let rAct := searchPatterns anticorrTrainingPatterns text
  let m : GovernanceMetrics :=
    { board_size := size
      independent_directors := ind
      independent_percentage :=
        if size > 0 ∧ ind > 0 then ind / size * 100 else 0
      women_directors := wdir
      women_board_percentage :=
        if size > 0 ∧ wdir > 0 then wdir / size * 100 else 0
      board_meetings := bm
      audit_committee_meetings := guardVal rAud (fun v => v ≤ 15) pyTrunc
      csr_committee_meetings := guardVal rCsrC (fun _ => true) pyTrunc
      ethics_complaints := someVal rEth pyTrunc
      corruption_incidents := corr
      whistleblower_complaints := someVal rWh pyTrunc
      fines_penalties_amount := guardVal rPen (fun _ => true) id
      ceo_to_median_multiple := guardVal rRatio (fun _ => true) id
      employees_trained_anti_corruption := guardVal rAct (fun v => v ≤ 100) id }
  let log : List (String × ℚ) :=
    (if guardHit rBoard (fun v => 3 ≤ v && v ≤ 25) then [("board_size", size)] else []) ++
    (if guardHit rInd (fun _ => true) then [("independent_directors", ind)] else []) ++
    (if guardHit rWb (fun _ => true) then [("women_directors", wdir)] else []) ++
    (if guardHit rBm (fun v => v ≤ 20) then [("board_meetings", bm)] else [])
  (m, log)

/-!
## `EnhancedBRSRParser.parse`

The parser object's `self.metrics_found` dict survives across `parse`
calls (`__init__` creates it empty and `parse` never clears it), so it
is threaded explicitly as an association list with Python-dict insertion
semantics (update in place if the key exists, else append).  A
`Document` carries what the PDF-extraction collaborator hands over:
raw text, tables and the page count.  Identity fields (Section A) and
the debugging field `raw_extractions` are not modelled.
-/

/-- Python dict insertion `d[k] = v` on an insertion-ordered assoc list. -/
def dinsert (k : String) (v : ℚ) (d : List (String × ℚ)) : List (String × ℚ) :=
  if k ∈ d.map Prod.fst then
    d.map (fun p => if p.1 = k then (k, v) else p)
  else d ++ [(k, v)]

def dinsertAll (d : List (String × ℚ)) (l : List (String × ℚ)) :
    List (String × ℚ) :=
  l.foldl (fun d p => dinsert p.1 p.2 d) d

structure Document where
  raw_text : String
  tables : List (List (List String))
  page_count : Nat

structure BRSRExtractedData where
  pages_processed : Nat
  environmental : EnvironmentalMetrics
  social : SocialMetrics
  governance : GovernanceMetrics
  metrics_found : Nat
  metrics_total : Nat
  extraction_confidence : ℚ
  deriving DecidableEq

/-- `EnhancedBRSRParser.parse`, from the point where text, page count and
tables have been produced by the PDF backend: runs the three Section C
extractors, accumulates `self.metrics_found`, and fills in the counters
and the confidence `(metrics_found / metrics_total) * 100` with
`metrics_total = 50`.  Takes and returns the parser state. -/
def parse (st : List (String × ℚ)) (doc : Document) :
    List (String × ℚ) × BRSRExtractedData :=
  let text := doc.raw_text.data
  let env := extractEnvironmental text doc.tables
  let soc := extractSocial text doc.tables
  let gov := extractGovernance text
  let st := dinsertAll st (env.2 ++ soc.2 ++ gov.2)
  let found := st.length
  (st,
   { pages_processed := doc.page_count
     environmental := env.1
     social := soc.1
     governance := gov.1
     metrics_found := found
     metrics_total := 50
     extraction_confidence := ((found : ℚ) / 50) * 100 })

/-!
## `BRSRExtractedData.to_esg_input`

The flat projection handed to the downstream ESG calculator.  The
field `turnover` (company revenue, Section A) is a parameter here since
identity extraction is not modelled; every numeric fallback of the
method is reproduced verbatim.  Key `ceo_median_pay_ratio` of the source
dict is field `ceo_median_pay_multiple`.
-/

structure EsgInput where
  carbon_emissions_intensity : ℚ
  total_ghg_emissions : ℚ
  scope1_emissions : ℚ
  scope2_emissions : ℚ
  scope3_emissions : ℚ
  energy_consumption_intensity : ℚ
  total_energy_consumption : ℚ
  renewable_energy_percentage : ℚ
  water_consumption_intensity : ℚ
  total_water_withdrawal : ℚ
  water_recycling_percentage : ℚ
  waste_recycling_rate : ℚ
  total_waste_generated : ℚ
  hazardous_waste : ℚ
  environmental_compliance : ℚ
  total_employees : ℚ
  ltifr : ℚ
  fatalities : ℚ
  employee_turnover_rate : ℚ
  women_workforce_percentage : ℚ
  training_hours_per_employee : ℚ
  csr_spending : ℚ
  csr_spending_percentage : ℚ
  customer_complaints_resolved : ℚ
  data_breaches : ℚ
  child_labor_incidents : ℚ
  discrimination_incidents : ℚ
  sexual_harassment_complaints : ℚ
  board_size : ℚ
  independent_directors : ℚ
  independent_directors_percentage : ℚ
  women_directors : ℚ
  women_directors_percentage : ℚ
  board_meetings : ℚ
  audit_committee_meetings : ℚ
  ceo_median_pay_multiple : ℚ
  ethics_complaints : ℚ
  corruption_incidents : ℚ
  whistleblower_complaints : ℚ
  fines_penalties : ℚ
  deriving DecidableEq

def to_esg_input (turnover : ℚ) (d : BRSRExtractedData) : EsgInput :=
  let env := d.environmental
  let soc := d.social
  let gov := d.governance
  let carbon_intensity : ℚ :=
    if turnover > 0 ∧ env.total_ghg_emissions > 0 then
      env.total_ghg_emissions / turnover
    else if env.emission_intensity > 0 then env.emission_intensity
    else 50
  let energy_intensity : ℚ :=
    if turnover > 0 ∧ env.total_energy_consumption > 0 then
      env.total_energy_consumption / turnover
    else if env.energy_intensity > 0 then env.energy_intensity
    else 200
  let water_intensity : ℚ :=
    if turnover > 0 ∧ env.total_water_withdrawal > 0 then
      env.total_water_withdrawal / turnover
    else if env.water_intensity > 0 then env.water_intensity
    else 300
  let women_pct : ℚ :=
    if soc.women_percentage = 0 ∧ soc.total_employees > 0 ∧ soc.women_employees > 0 then
      soc.women_employees / soc.total_employees * 100
    else if soc.women_percentage = 0 ∧ soc.total_employees > 0 ∧ soc.female_employees > 0 then
      soc.female_employees / soc.total_employees * 100
    else soc.women_percentage
  let csr_pct : ℚ :=
    if soc.csr_percentage = 0 ∧ soc.csr_spending > 0 ∧ soc.csr_spending_required > 0 then
      soc.csr_spending / soc.csr_spending_required * 100
    else soc.csr_percentage
  let resolution : ℚ :=
    if soc.resolution_rate = 0 ∧ soc.customer_complaints > 0 then
      soc.customer_complaints_resolved / soc.customer_complaints * 100
    else soc.resolution_rate
  { carbon_emissions_intensity := carbon_intensity
    total_ghg_emissions := env.total_ghg_emissions
    scope1_emissions := env.scope1_emissions
    scope2_emissions := env.scope2_emissions
    scope3_emissions := env.scope3_emissions
    energy_consumption_intensity := energy_intensity
    total_energy_consumption := env.total_energy_consumption
    renewable_energy_percentage :=
      if env.renewable_energy_percentage > 0 then env.renewable_energy_percentage else 25
    water_consumption_intensity := water_intensity
    total_water_withdrawal := env.total_water_withdrawal
    water_recycling_percentage := env.water_recycling_percentage
    waste_recycling_rate :=
      if env.waste_recycling_percentage > 0 then env.waste_recycling_percentage else 65
    total_waste_generated := env.total_waste_generated
    hazardous_waste := env.hazardous_waste
    environmental_compliance :=
      if env.environmental_fines = 0 then 100
      else max 50 (100 - env.environmental_fines_count * 10)
    total_employees := soc.total_employees
    ltifr := if soc.ltifr > 0 then soc.ltifr
      else if soc.ltifr_employees > 0 then soc.ltifr_employees else 1/2
    fatalities := soc.fatalities
    employee_turnover_rate := if soc.turnover_rate > 0 then soc.turnover_rate else 15
    women_workforce_percentage := if women_pct > 0 then women_pct else 25
    training_hours_per_employee :=
      if soc.training_hours_per_employee > 0 then soc.training_hours_per_employee else 20
    csr_spending := soc.csr_spending
    csr_spending_percentage := if csr_pct > 0 then csr_pct else 2
    customer_complaints_resolved := if resolution > 0 then resolution else 95
    data_breaches := soc.data_breaches + soc.cyber_security_incidents
    child_labor_incidents := soc.child_labor_incidents
    discrimination_incidents := soc.discrimination_incidents
    sexual_harassment_complaints := soc.sexual_harassment_complaints
    board_size := gov.board_size
    independent_directors := gov.independent_directors
    independent_directors_percentage :=
      if gov.independent_percentage > 0 then gov.independent_percentage else 50
    women_directors := gov.women_directors
    women_directors_percentage :=
      if gov.women_board_percentage > 0 then gov.women_board_percentage else 17
    board_meetings := if gov.board_meetings > 0 then gov.board_meetings else 6
    audit_committee_meetings :=
      if gov.audit_committee_meetings > 0 then gov.audit_committee_meetings else 4
    ceo_median_pay_multiple :=
      if GovernanceMetrics.ceo_to_median_multiple gov > 0 then
        GovernanceMetrics.ceo_to_median_multiple gov
      else 100
    ethics_complaints := gov.ethics_complaints
    corruption_incidents := gov.corruption_incidents
    whistleblower_complaints := gov.whistleblower_complaints
    fines_penalties := gov.fines_penalties_amount }

/-!
## Supporting lemmas
-/

theorem firstSome_some_imp {α β : Type} (P : β → Prop) (f : α → Option β)
    (hf : ∀ x y, f x = some y → P y) :
    ∀ l v, firstSome l f = some v → P v := by
  intro l
  induction l with
  | nil => intro v h; simp [firstSome] at h
  | cons x xs ih =>
    intro v h
    rw [firstSome] at h
    cases hx : f x with
    | some y =>
      rw [hx] at h
      obtain rfl : y = v := Option.some.inj h
      exact hf x y hx
    | none => rw [hx] at h; exact ih v h

theorem posOnly_pos (q v : ℚ) (h : posOnly q = some v) : 0 < v := by
  rw [posOnly] at h
  split at h
  · exact Option.some.inj h ▸ (by assumption)
  · exact absurd h (by simp)

theorem matchValue_pos (text : Chars) (n : Nat) (m : MatchInfo) (v : ℚ)
    (h : matchValue text n m = some v) : 0 < v := by
  rw [matchValue] at h
  split at h
  · refine firstSome_some_imp (0 < ·) _ ?_ _ _ h
    intro g y hg
    cases g with
    | some s =>
      simp only at hg
      split at hg
      · exact posOnly_pos _ _ hg
      · exact absurd hg (by simp)
    | none => exact absurd hg (by simp)
  · exact posOnly_pos _ _ h

theorem patternValue_pos (p : String) (text : Chars) (v : ℚ)
    (h : patternValue p text = some v) : 0 < v := by
  rw [patternValue] at h
  split at h
  · exact absurd h (by simp)
  · exact firstSome_some_imp (0 < ·) _ (fun m y hm => matchValue_pos text _ m y hm) _ _ h

theorem cellScan_pos (row : List String) (v : ℚ)
    (h : firstSome row.reverse
      (fun cell => posOnly (cleanNumber cell false)) = some v) : 0 < v :=
  firstSome_some_imp (0 < ·) _ (fun cell y hc => posOnly_pos _ _ hc) _ _ h

theorem dinsert_keys_of_mem {k : String} {v : ℚ} {d : List (String × ℚ)}
    (h : k ∈ d.map Prod.fst) :
    (dinsert k v d).map Prod.fst = d.map Prod.fst := by
  rw [dinsert, if_pos h, List.map_map]
  refine List.map_congr_left ?_
  intro p _
  by_cases hp : p.1 = k
  · simp [hp]
  · simp [hp]

theorem dinsert_length_of_mem {k : String} {v : ℚ} {d : List (String × ℚ)}
    (h : k ∈ d.map Prod.fst) :
    (dinsert k v d).length = d.length := by
  rw [dinsert, if_pos h, List.length_map]

theorem mem_keys_dinsert_self (k : String) (v : ℚ) (d : List (String × ℚ)) :
    k ∈ (dinsert k v d).map Prod.fst := by
  by_cases h : k ∈ d.map Prod.fst
  · rw [dinsert_keys_of_mem h]; exact h
  · rw [dinsert, if_neg h]
    simp

theorem mem_keys_dinsert_mono {a k : String} {v : ℚ} {d : List (String × ℚ)}
    (h : a ∈ d.map Prod.fst) : a ∈ (dinsert k v d).map Prod.fst := by
  by_cases hk : k ∈ d.map Prod.fst
  · rw [dinsert_keys_of_mem hk]; exact h
  · rw [dinsert, if_neg hk]
    simp only [List.map_append, List.mem_append]
    exact Or.inl h

theorem mem_keys_dinsertAll_mono {a : String} {L : List (String × ℚ)} :
    ∀ {d : List (String × ℚ)}, a ∈ d.map Prod.fst →
      a ∈ (dinsertAll d L).map Prod.fst := by
  induction L with
  | nil => intro d h; exact h
  | cons p L ih =>
    intro d h
    exact ih (mem_keys_dinsert_mono h)

theorem mem_keys_dinsertAll_of_mem_log {p : String × ℚ} :
    ∀ {L : List (String × ℚ)}, p ∈ L →
      ∀ d : List (String × ℚ), p.1 ∈ (dinsertAll d L).map Prod.fst := by
  intro L
  induction L with
  | nil => intro hp d; exact absurd hp (List.not_mem_nil p)
  | cons q L ih =>
    intro hp d
    rcases List.mem_cons.mp hp with h | h
    · subst h
      show p.1 ∈ (dinsertAll (dinsert p.1 p.2 d) L).map Prod.fst
      exact mem_keys_dinsertAll_mono (mem_keys_dinsert_self p.1 p.2 d)
    · show p.1 ∈ (dinsertAll (dinsert q.1 q.2 d) L).map Prod.fst
      exact ih h _

theorem dinsertAll_length_of_keys {L : List (String × ℚ)} :
    ∀ {d : List (String × ℚ)}, (∀ p ∈ L, p.1 ∈ d.map Prod.fst) →
      (dinsertAll d L).length = d.length := by
  induction L with
  | nil => intro d _; rfl
  | cons p L ih =>
    intro d h
    have hp : p.1 ∈ d.map Prod.fst := h p (List.mem_cons_self p L)
    have hkeys : ∀ q ∈ L, q.1 ∈ (dinsert p.1 p.2 d).map Prod.fst := by
      intro q hq
      rw [dinsert_keys_of_mem hp]
      exact h q (List.mem_cons_of_mem p hq)
    calc (dinsertAll d (p :: L)).length
        = (dinsertAll (dinsert p.1 p.2 d) L).length := rfl
      _ = (dinsert p.1 p.2 d).length := ih hkeys
      _ = d.length := dinsert_length_of_mem hp

theorem dinsertAll_idem_length (d L : List (String × ℚ)) :
    (dinsertAll (dinsertAll d L) L).length = (dinsertAll d L).length :=
  dinsertAll_length_of_keys (fun q hq => mem_keys_dinsertAll_of_mem_log hq d)

/-!
## Claim theorems
-/

unseal Rat.mul Rat.inv Rat.add Rat.sub Rat.ofScientific in
/-- C6: the numeric normalizer maps "1,234.56" to 1234.56; "(500)" with
allow_negative=false to 500.0 and with allow_negative=true to -500.0;
"50 Lakh" to 0.5 (base unit crore); "nil" to 0.0; and "12.5%" to 12.5. -/
theorem clean_number_round_trips :
    cleanNumber "1,234.56" false = 1234.56 ∧
    cleanNumber "(500)" false = 500 ∧
    cleanNumber "(500)" true = -500 ∧
    cleanNumber "50 Lakh" false = 0.5 ∧
    cleanNumber "nil" false = 0 ∧
    cleanNumber "12.5%" false = 12.5 := by
  refine ⟨by decide, by decide, by decide, by decide, by decide, by decide⟩

unseal Rat.mul Rat.inv Rat.add Rat.sub Rat.ofScientific in
/-- C7 counterexample: on an input with no digits after cleaning
("abc"), `_clean_number` returns the plain float 0.0 — the very same
value it returns for a successfully parsed "0" — not a failure value
distinct from every parsed number. -/
theorem clean_number_no_failure_value :
    cleanNumber "abc" false = 0 ∧ cleanNumber "0" false = 0 :=
  ⟨by decide, by decide⟩

/-- C7 (amended): when the cleaned string fails float conversion, the
`except ValueError` branch of `_clean_number` returns the number 0.0
rather than a distinguished failure value; "value absent" and "value is
zero" coincide, and callers only recover the distinction through their
strictly-positive guards. -/
theorem clean_number_failure_collapses_to_zero (s : String) (b : Bool)
    (h : parseFloat? (cleanStage s).2 = none) :
    cleanNumber s b = 0 := by
  rw [cleanNumber, h]
  split
  · rfl
  · split <;> rfl

unseal Rat.mul Rat.inv Rat.add Rat.sub Rat.ofScientific in
/-- C7 witness: the amended theorem applied to the digitless input
"abc". -/
theorem clean_number_failure_collapses_to_zero_witness :
    parseFloat? (cleanStage "abc").2 = none ∧ cleanNumber "abc" true = 0 :=
  ⟨by decide, clean_number_failure_collapses_to_zero "abc" true (by decide)⟩

/-- C10: `_search_patterns` and `_search_table_patterns` return only
strictly positive values — a substring or cell normalizing to 0 is
skipped — so a final field value of 0 never comes from a captured
numeric match. -/
theorem search_results_strictly_positive :
    (∀ (pats : List String) (text : Chars) (v : ℚ),
      searchPatterns pats text = some v → 0 < v) ∧
    (∀ (pats : List String) (ci : Option Nat)
      (tables : List (List (List String))) (v : ℚ),
      searchTablePatterns pats ci tables = some v → 0 < v) := by
  constructor
  · intro pats text v h
    exact firstSome_some_imp (0 < ·) _ (fun p y hp => patternValue_pos p text y hp) _ _ h
  · intro pats ci tables v h
    rw [searchTablePatterns] at h
    refine firstSome_some_imp (0 < ·) _ ?_ _ _ h
    intro table y ht
    split at ht
    · exact absurd ht (by simp)
    · refine firstSome_some_imp (0 < ·) _ ?_ _ _ ht
      intro row z hr
      split at hr
      · exact absurd hr (by simp)
      · refine firstSome_some_imp (0 < ·) _ ?_ _ _ hr
        intro p w hp
        split at hp
        · split at hp
          · split at hp
            · exact posOnly_pos _ _ hp
            · exact cellScan_pos _ _ hp
          · exact cellScan_pos _ _ hp
        · exact absurd hp (by simp)

unseal Rat.mul Rat.inv Rat.add Rat.sub Rat.ofScientific in
/-- C10 witness: a text pattern hit ("LTIFR: 2") and a table hit yield
strictly positive values. -/
theorem search_results_strictly_positive_witness :
    (0:ℚ) < 2 ∧ (0:ℚ) < 7 :=
  ⟨search_results_strictly_positive.1 ltifrPatterns "LTIFR: 2".data 2 (by decide),
   search_results_strictly_positive.2 energyTablePatterns none
     [[["total energy", "7"]]] 7 (by decide)⟩

/-- C8: per-field failure containment — a pattern that yields nothing
(including one the regex engine rejects, the `except` branch) is skipped
and the remaining patterns are still searched, and `parse` always hands
back a report whose three metric buckets are fully populated by the
per-category extractors, for every document text and tables. -/
theorem per_field_failure_containment :
    (∀ (text : Chars) (p : String) (ps : List String),
      patternValue p text = none →
      searchPatterns (p :: ps) text = searchPatterns ps text) ∧
    (∀ (st : List (String × ℚ)) (doc : Document),
      (parse st doc).2.environmental =
        (extractEnvironmental doc.raw_text.data doc.tables).1 ∧
      (parse st doc).2.social = (extractSocial doc.raw_text.data doc.tables).1 ∧
      (parse st doc).2.governance = (extractGovernance doc.raw_text.data).1) := by
  constructor
  · intro text p ps h
    simp only [searchPatterns, firstSome, h]
  · intro st doc
    exact ⟨rfl, rfl, rfl⟩

unseal Rat.mul Rat.inv Rat.add Rat.sub Rat.ofScientific in
/-- C8 witness: an invalid pattern (unbalanced group) contributes
nothing and search falls through to the remaining patterns. -/
theorem per_field_failure_containment_witness :
    patternValue (r"(") "LTIFR: 2".data = none ∧
    searchPatterns [r"(", r"LTIFR[:\s]*([\d,]+\.?\d*)"] "LTIFR: 2".data =
      searchPatterns [r"LTIFR[:\s]*([\d,]+\.?\d*)"] "LTIFR: 2".data :=
  ⟨by decide, per_field_failure_containment.1 _ _ _ (by decide)⟩

/-- C4: override precedence — whenever the document text matches a
fatalities null-assertion phrase ("zero/no/nil fatalities", or
"fatalities: nil/zero/0"), the final report carries fatalities = 0,
regardless of what the numeric pattern resolution found. -/
theorem fatalities_override_precedence (st : List (String × ℚ)) (doc : Document)
    (h : regexTest zeroFatalitiesRegex doc.raw_text.data = true) :
    (parse st doc).2.social.fatalities = 0 := by
  dsimp only [parse, extractSocial]
  rw [h]
  rfl

unseal Rat.mul Rat.inv Rat.add Rat.sub Rat.ofScientific in
/-- C4 witness: a document with a spurious numeric fatalities match (7)
and the phrase "zero fatalities" resolves fatalities to 0. -/
theorem fatalities_override_precedence_witness :
    searchPatterns fatalityPatterns
      "fatalities: 7 on page 3 of fatalities report, zero fatalities".data = some 7 ∧
    regexTest zeroFatalitiesRegex
      "fatalities: 7 on page 3 of fatalities report, zero fatalities".data = true ∧
    (parse []
      ⟨"fatalities: 7 on page 3 of fatalities report, zero fatalities", [], 1⟩).2.social.fatalities
      = 0 :=
  ⟨by decide, by decide, fatalities_override_precedence [] _ (by decide)⟩

/-- C5: derived-metric correctness — for every document whose text
resolves scope 1 emissions to 100 and scope 2 emissions to 50 while no
total-GHG pattern matches, the assembled report carries
total_ghg_emissions = 150, computed as scope1 + scope2. -/
theorem total_ghg_derived (st : List (String × ℚ)) (doc : Document)
    (h1 : searchPatterns scope1Patterns doc.raw_text.data = some 100)
    (h2 : searchPatterns scope2Patterns doc.raw_text.data = some 50)
    (h3 : searchPatterns totalGhgPatterns doc.raw_text.data = none) :
    (parse st doc).2.environmental.total_ghg_emissions = 150 := by
  dsimp only [parse, extractEnvironmental]
  rw [h1, h2, h3]
  norm_num [pyTruthy, guardVal]

unseal Rat.mul Rat.inv Rat.add Rat.sub Rat.ofScientific in
/-- C5 witness: "Scope 1: 100 tCO2e Scope 2: 50 tCO2e" derives a total
of 150. -/
theorem total_ghg_derived_witness :
    searchPatterns scope1Patterns "Scope 1: 100 tCO2e Scope 2: 50 tCO2e".data = some 100 ∧
    searchPatterns scope2Patterns "Scope 1: 100 tCO2e Scope 2: 50 tCO2e".data = some 50 ∧
    searchPatterns totalGhgPatterns "Scope 1: 100 tCO2e Scope 2: 50 tCO2e".data = none ∧
    (parse [] ⟨"Scope 1: 100 tCO2e Scope 2: 50 tCO2e", [], 1⟩).2.environmental.total_ghg_emissions
      = 150 :=
  ⟨by decide, by decide, by decide,
   total_ghg_derived [] _ (by decide) (by decide) (by decide)⟩

unseal Rat.mul Rat.inv Rat.add Rat.sub Rat.ofScientific in
/-- C1 counterexample: in a document whose earlier board pattern match
normalizes to the implausible 5000 while a later pattern would yield the
in-range 9, extraction does NOT fall back: `_search_patterns` stops at
the first positive match (5000), the range guard discards it, and
board_size is left unset (0), not resolved to 9. -/
theorem board_size_no_fallback_counterexample :
    searchPatterns boardPatterns "board strength: 5000 and total directors: 9".data
      = some 5000 ∧
    searchPatterns [r"total\s+(?:number\s+of\s+)?directors?[:\s]*([\d,]+)"]
      "board strength: 5000 and total directors: 9".data = some 9 ∧
    ((3:ℚ) ≤ 9 ∧ (9:ℚ) ≤ 25) ∧
    (extractGovernance "board strength: 5000 and total directors: 9".data).1.board_size
      = 0 :=
  ⟨by decide, by decide, by decide, by decide⟩

/-- C1 (amended): when the first positive value found by the board-size
pattern search is outside the plausible range [3, 25], the value is
discarded and board_size stays at its unset default 0 — the extractor
does not try later patterns or a table fallback for this field. -/
theorem board_size_implausible_discarded (text : Chars) (r : ℚ)
    (h : searchPatterns boardPatterns text = some r)
    (hr : ¬(3 ≤ r ∧ r ≤ 25)) :
    (extractGovernance text).1.board_size = 0 := by
  dsimp only [extractGovernance]
  rw [h]
  dsimp only [guardVal]
  have hg : (decide (r ≠ 0) && (decide (3 ≤ r) && decide (r ≤ 25))) = false := by
    rcases Decidable.not_and_iff_or_not.mp hr with h1 | h1 <;> simp [h1]
  rw [hg]
  rfl

unseal Rat.mul Rat.inv Rat.add Rat.sub Rat.ofScientific in
/-- C1 witness: the amended theorem applied to the implausible match
5000. -/
theorem board_size_implausible_discarded_witness :
    searchPatterns boardPatterns "board strength: 5000".data = some 5000 ∧
    (extractGovernance "board strength: 5000".data).1.board_size = 0 :=
  ⟨by decide,
   board_size_implausible_discarded "board strength: 5000".data 5000
     (by decide) (by decide)⟩

/-- An all-defaults extracted report: every metric unresolved (0). -/
def zeroReportData : BRSRExtractedData :=
  { pages_processed := 0
    environmental := {}
    social := {}
    governance := {}
    metrics_found := 0
    metrics_total := 50
    extraction_confidence := 0 }

unseal Rat.mul Rat.inv Rat.add Rat.sub Rat.ofScientific in
/-- C2 counterexample: `to_esg_input` substitutes invented constants for
unresolved fields — on an all-unresolved report it reports renewable
energy 25 %, employee turnover 15 % and women workforce 25 %, none of
which were found or derived (all are 0 in the report). -/
theorem to_esg_input_invents_defaults :
    zeroReportData.environmental.renewable_energy_percentage = 0 ∧
    (to_esg_input 0 zeroReportData).renewable_energy_percentage = 25 ∧
    zeroReportData.social.turnover_rate = 0 ∧
    (to_esg_input 0 zeroReportData).employee_turnover_rate = 15 ∧
    (to_esg_input 0 zeroReportData).women_workforce_percentage = 25 :=
  ⟨by decide, by decide, by decide, by decide, by decide⟩

/-- C2 (amended): `to_esg_input` applies fallback defaults itself: for
every report it returns renewable_energy_percentage 25 whenever the
extracted percentage is unresolved (0), employee_turnover_rate 15
whenever the extracted rate is 0, and women_workforce_percentage 25
whenever neither a percentage nor counts were extracted. -/
theorem to_esg_input_fallback_constants (t : ℚ) (d : BRSRExtractedData) :
    (d.environmental.renewable_energy_percentage = 0 →
      (to_esg_input t d).renewable_energy_percentage = 25) ∧
    (d.social.turnover_rate = 0 → (to_esg_input t d).employee_turnover_rate = 15) ∧
    (d.social.women_percentage = 0 ∧ d.social.total_employees = 0 →
      (to_esg_input t d).women_workforce_percentage = 25) := by
  refine ⟨?_, ?_, ?_⟩
  · intro h
    dsimp only [to_esg_input]
    rw [h]
    norm_num
  · intro h
    dsimp only [to_esg_input]
    rw [h]
    norm_num
  · rintro ⟨h1, h2⟩
    dsimp only [to_esg_input]
    rw [h1, h2]
    norm_num

unseal Rat.mul Rat.inv Rat.add Rat.sub Rat.ofScientific in
/-- C2 witness: the amended theorem applied to the all-unresolved
report. -/
theorem to_esg_input_fallback_constants_witness :
    (to_esg_input 0 zeroReportData).renewable_energy_percentage = 25 ∧
    (to_esg_input 0 zeroReportData).employee_turnover_rate = 15 ∧
    (to_esg_input 0 zeroReportData).women_workforce_percentage = 25 :=
  ⟨(to_esg_input_fallback_constants 0 zeroReportData).1 (by decide),
   (to_esg_input_fallback_constants 0 zeroReportData).2.1 (by decide),
   (to_esg_input_fallback_constants 0 zeroReportData).2.2 ⟨by decide, by decide⟩⟩

unseal Rat.mul Rat.inv Rat.add Rat.sub Rat.ofScientific in
/-- C3 counterexample: appending the phrase " board strength: 5000"
(which matches a board-size pattern) to "total directors: 9" drops the
already-found board_size — the appended phrase wins the pattern priority
race with an implausible value — and confidence falls from 2 to 0. -/
theorem confidence_not_monotone :
    "total directors: 9" ++ " board strength: 5000"
      = "total directors: 9 board strength: 5000" ∧
    (searchPatterns boardPatterns " board strength: 5000".data).isSome = true ∧
    (parse [] ⟨"total directors: 9", [], 1⟩).2.extraction_confidence = 2 ∧
    (parse [] ⟨"total directors: 9 board strength: 5000", [], 1⟩).2.extraction_confidence
      = 0 :=
  ⟨rfl, by decide, by decide, by decide⟩

/-- C3 (amended): confidence is (metrics_found / 50) * 100 and is
monotonically non-decreasing in the number of metrics found; but adding
a field-matching phrase to the text can lower that number (and hence
confidence) by pre-empting a bounded field's higher-priority pattern
with an implausible value. -/
theorem confidence_formula_monotone (n m : Nat) (h : n ≤ m) :
    (n : ℚ) / 50 * 100 ≤ (m : ℚ) / 50 * 100 := by
  have hq : (n : ℚ) ≤ (m : ℚ) := Nat.cast_le.mpr h
  linarith

theorem confidence_monotone_in_found (st su : List (String × ℚ))
    (d e : Document)
    (h : (parse st d).1.length ≤ (parse su e).1.length) :
    (parse st d).2.extraction_confidence ≤ (parse su e).2.extraction_confidence := by
  dsimp only [parse] at h ⊢
  exact confidence_formula_monotone _ _ h

unseal Rat.mul Rat.inv Rat.add Rat.sub Rat.ofScientific in
/-- C3 witness: the monotonicity-in-count theorem applied to the empty
document versus one resolving a board size. -/
theorem confidence_monotone_in_found_witness :
    (parse [] ⟨"", [], 1⟩).1.length ≤ (parse [] ⟨"board size: 7", [], 1⟩).1.length ∧
    (parse [] ⟨"", [], 1⟩).2.extraction_confidence ≤
      (parse [] ⟨"board size: 7", [], 1⟩).2.extraction_confidence :=
  ⟨by decide, confidence_monotone_in_found [] [] _ _ (by decide)⟩

unseal Rat.mul Rat.inv Rat.add Rat.sub Rat.ofScientific in
/-- C9 counterexample: `parse` never clears `self.metrics_found`, so
parsing document A ("board size: 9") before an empty document B on the
same parser yields for B metrics_found = 1 and confidence 2, while a
fresh parser on B yields 0 and 0 — state leaks across calls. -/
theorem parse_state_leak :
    (parse [] ⟨"", [], 1⟩).2.metrics_found = 0 ∧
    (parse [] ⟨"", [], 1⟩).2.extraction_confidence = 0 ∧
    (parse (parse [] ⟨"board size: 9", [], 1⟩).1 ⟨"", [], 1⟩).2.metrics_found = 1 ∧
    (parse (parse [] ⟨"board size: 9", [], 1⟩).1 ⟨"", [], 1⟩).2.extraction_confidence = 2 :=
  ⟨by decide, by decide, by decide, by decide⟩

/-- C9 (amended): the extracted metric values are a pure function of the
document (independent of parser state), and re-parsing the same document
on the same parser is idempotent (the dict re-insertions hit only
existing keys); but the carried `metrics_found` dict makes
metrics_found/confidence of a later, different document depend on
earlier parses. -/
theorem parse_idempotent_and_pure (st su : List (String × ℚ)) (d : Document) :
    (parse (parse st d).1 d).2 = (parse st d).2 ∧
    (parse st d).2.environmental = (parse su d).2.environmental ∧
    (parse st d).2.social = (parse su d).2.social ∧
    (parse st d).2.governance = (parse su d).2.governance := by
  refine ⟨?_, rfl, rfl, rfl⟩
  dsimp only [parse]
  rw [dinsertAll_idem_length]

end ESG
